import Mathlib

/-!
Verification of the slideflow heatmap generation engine
(`slideflow/heatmap.py`): the `Heatmap` class's channel splitting,
npz persistence, constructor validation, and generation control flow
are shallowly embedded as executable Lean definitions, and the spec's
claims about them are settled as theorems below.
-/

namespace Slideflow

/-- Scalar cell values of the result arrays.  The claims under study only
need the sentinel constant `-1` and equality, so the numpy float payload
is modelled by `Int`. -/
abbrev Val := Int

/-- A per-cell channel vector (the last axis of the 3-D result array). -/
abbrev Vec := List Val

/-- A 3-D result array: rows of columns of channel vectors. -/
abbrev Grid := List (List Vec)

/-- Python slice `v[:-u]` on a channel vector: for `u = 0` this is `v[:0]`,
the empty list; for `u > 0` it is the first `length - u` entries
(empty when `u ≥ length`), matching Python's negative-stop slicing. -/
def pySliceStopNeg (u : Nat) (v : Vec) : Vec :=
  if u = 0 then [] else v.take (v.length - u)

/-- Python slice `v[-u:]` on a channel vector: for `u = 0` this is `v[0:]`,
the whole list; for `u > 0` it is the last `u` entries (the whole list
when `u ≥ length`), matching Python's negative-start slicing. -/
def pySliceStartNeg (u : Nat) (v : Vec) : Vec :=
  if u = 0 then v else v.drop (v.length - u)

/-- Apply a channel-axis slice to every cell of a 3-D array, as the numpy
expressions `out[:, :, :-u]` and `out[:, :, -u:]` do. -/
def mapChannels (f : Vec → Vec) (g : Grid) : Grid :=
  g.map (fun row => row.map f)

/-- The mutable prediction state of a `Heatmap` instance: the
`self.predictions` and `self.uncertainty` attributes (`None` ↦ `none`). -/
structure HeatmapState where
  predictions : Option Grid
  uncertainty : Option Grid
deriving Repr, DecidableEq

/-- The tail of `Heatmap.generate._generate` (heatmap.py lines 271-277):
given the interface's raw output array `out`, when `self.uq` is set it
stores `out[:, :, :-(self.num_uncertainty)]` as predictions and
`out[:, :, -(self.num_uncertainty):]` as uncertainty; otherwise it stores
the whole array as predictions and `None` as uncertainty. -/
def generateSplit (uq : Bool) (num_uncertainty : Nat) (out : Grid) : HeatmapState :=
  if uq then
    { predictions := some (mapChannels (pySliceStopNeg num_uncertainty) out),
      uncertainty := some (mapChannels (pySliceStartNeg num_uncertainty) out) }
  else
    { predictions := some out, uncertainty := none }

/-- A value stored under one key of an `.npz` container: either a numeric
array, or (as `np.savez` would store a `None` attribute) a null payload. -/
inductive NpVal where
  | arr (g : Grid)
  | null
deriving Repr, DecidableEq

/-- An `.npz` container: a flat key-to-value map, modelled as an
association list over the string keys the code uses. -/
abbrev Container := List (String × NpVal)

/-- Key lookup in a container (`npzfile[key]`). -/
def lookupC : Container → String → Option NpVal
  | [], _ => none
  | (k', v) :: rest, k => if k' = k then some v else lookupC rest k

/-- Key membership in a container (`key in npzfile`). -/
def containsC (c : Container) (k : String) : Bool :=
  (lookupC c k).isSome

/-- How a `Heatmap` attribute (`None` or an array) is stored in the
container by `np.savez`. -/
def toNpVal : Option Grid → NpVal
  | some g => .arr g
  | none => .null

/-- How a stored container value is read back into a `Heatmap`
attribute. -/
def fromNpVal : NpVal → Option Grid
  | .arr g => some g
  | .null => none

/-- `Heatmap.save_npz` (heatmap.py lines 631-651): writes `predictions`
under the key `predictions` and, exactly when `self.uq` is set, also
writes `uncertainty` under the key `uncertainty`. -/
def save_npz (uq : Bool) (s : HeatmapState) : Container :=
  let kw : Container := [("predictions", toNpVal s.predictions)]
  if uq then kw ++ [("uncertainty", toNpVal s.uncertainty)] else kw

/-- The outcome of `Heatmap.load_npz`: the instance state after the call,
the warnings logged, and the exception raised (`none` on success).  When
an exception is raised the returned state is the instance state at the
moment of the raise. -/
structure LoadOutcome where
  state : HeatmapState
  warnings : List String
  error : Option String
deriving Repr, DecidableEq

/-- `Heatmap.load_npz` (heatmap.py lines 366-388): if the container lacks
`predictions` but has `logits`, warns and loads predictions from
`logits`; otherwise loads `npzfile['predictions']`, which raises a
`KeyError` (before any attribute assignment) when the key is absent.
Finally, if `uncertainty` is present, loads it; otherwise the
`uncertainty` attribute is left untouched. -/
def load_npz (c : Container) (s : HeatmapState) : LoadOutcome :=
  if !(containsC c "predictions") && containsC c "logits" then
    let s1 := { s with predictions := fromNpVal ((lookupC c "logits").getD .null) }
    let s2 := if containsC c "uncertainty" then
        { s1 with uncertainty := fromNpVal ((lookupC c "uncertainty").getD .null) }
      else s1
    { state := s2,
      warnings := ["Loading predictions from logits key."],
      error := none }
  else
    match lookupC c "predictions" with
    | none =>
        { state := s, warnings := [],
          error := some "KeyError: predictions is not a file in the archive" }
    | some v =>
        let s1 := { s with predictions := fromNpVal v }
        let s2 := if containsC c "uncertainty" then
            { s1 with uncertainty := fromNpVal ((lookupC c "uncertainty").getD .null) }
          else s1
        { state := s2, warnings := [], error := none }

/-- Reading back a stored attribute recovers it, including `None`. -/
theorem fromNpVal_toNpVal (o : Option Grid) : fromNpVal (toNpVal o) = o := by
  cases o <;> rfl

/-- Modelled from the spec: the Tile Source `slideflow.slide.WSI` is not
under src/.  Per the spec it reports slide geometry and a 2-D tile grid;
its `grid` array is indexed column-major, so `grid.shape[0]` is the
column count and `grid.shape[1]` the row count (`Heatmap.generate` reads
the shape as `(shape[1], shape[0], C)` to build a rows × cols × C
buffer). -/
structure WSIObj where
  path : String
  tile_px : Nat
  tile_um : Nat
  stride_div : Int
  gridShape0 : Nat
  gridShape1 : Nat
deriving Repr, DecidableEq

/-- The grid's row count in the spec's `(rows, cols)` terms. -/
def WSIObj.gridRows (w : WSIObj) : Nat := w.gridShape1

/-- The grid's column count in the spec's `(rows, cols)` terms. -/
def WSIObj.gridCols (w : WSIObj) : Nat := w.gridShape0

/-- Modelled from the spec: the Inference Interface
(`sf.model.Features` / `sf.model.UncertaintyInterface`) is not under
src/.  It declares fixed channel counts and, called on a slide, fills a
result buffer deterministically (the spec requires tile enumeration to
be "stable across runs so re-generation is reproducible"); `fill` is
that deterministic buffer-filling pass. -/
structure InterfaceModel where
  num_features : Nat
  num_classes : Nat
  num_uncertainty : Nat
  fill : WSIObj → Grid → Grid

/-- The buffer `np.ones((rows, cols, c)) * -1`: every entry is the
sentinel `-1`. -/
def sentinelGrid (rows cols c : Nat) : Grid :=
  List.replicate rows (List.replicate cols (List.replicate c (-1 : Val)))

/-- Modelled from the spec: calling the Inference Interface with
`grid=None` makes it allocate its own result buffer, "pre-allocated at
run start, fully initialized to the sentinel value -1, sized
(rows, cols, C)"; with an explicit `grid` it fills that buffer in place
and returns it. -/
def interfaceRun (it : InterfaceModel) (w : WSIObj) : Option Grid → Grid
  | some g => it.fill w g
  | none =>
      it.fill w (sentinelGrid w.gridRows w.gridCols
        (it.num_features + it.num_classes + it.num_uncertainty))

/-- What the background thread of an asynchronous `generate` produces
once joined: the filled buffer and the instance state written by
`_generate`. -/
structure ThreadOutcome where
  finalBuffer : Grid
  finalState : HeatmapState
deriving Repr

/-- The inner closure `_generate` of `Heatmap.generate` (heatmap.py
lines 260-277): calls the interface on the slide (passing the supplied
grid, if any) and splits the raw output into the `predictions` and
`uncertainty` attributes. -/
def generateInner (it : InterfaceModel) (uq : Bool) (w : WSIObj)
    (grid : Option Grid) : Grid × HeatmapState :=
  let out := interfaceRun it w grid
  (out, generateSplit uq it.num_uncertainty out)

/-- `Heatmap.generate` (heatmap.py lines 234-292).  Synchronous mode runs
`_generate()` to completion, stores the split result in the instance
state, and returns `None`.  Asynchronous mode allocates
`np.ones((grid.shape[1], grid.shape[0], nf+nc+nu)) * -1`, starts
`_generate(grid)` on a background thread, and returns the buffer
together with the thread (whose eventual outcome is recorded in
`ThreadOutcome`); the caller's state is unchanged at the moment of
return.  The function performs no in-progress check: it never raises a
state error, whatever run may already be active. -/
def Heatmap.generate (it : InterfaceModel) (uq : Bool) (w : WSIObj)
    (s : HeatmapState) (asynchronous : Bool) :
    HeatmapState × Option (Grid × ThreadOutcome) :=
  if asynchronous then
    let grid := sentinelGrid w.gridRows w.gridCols
      (it.num_features + it.num_classes + it.num_uncertainty)
    let r := generateInner it uq w (some grid)
    (s, some (grid, { finalBuffer := r.1, finalState := r.2 }))
  else
    let r := generateInner it uq w none
    (r.2, none)

/-- Errors the `WSI` constructor can raise. -/
inductive WSIErr where
  | slideLoadError
  | configError
deriving Repr, DecidableEq

/-- Modelled from the spec: the `WSI` constructor (slideflow.slide, not
under src/).  Per the spec, "Stride divisor values ≤0 are invalid and
rejected at construction" (a configuration error); independently, the
slide file may fail to load (`errors.SlideLoadError`), which
`Heatmap.__init__` catches and re-raises as a `HeatmapError`.  The
`loadOk` flag abstracts whether the slide file itself loads. -/
def WSI_construct (path : String) (tile_px tile_um : Nat) (stride_div : Int)
    (loadOk : Bool) (shape0 shape1 : Nat) : Except WSIErr WSIObj :=
  if stride_div ≤ 0 then .error .configError
  else if !loadOk then .error .slideLoadError
  else .ok { path := path, tile_px := tile_px, tile_um := tile_um,
             stride_div := stride_div, gridShape0 := shape0, gridShape1 := shape1 }

/-- The `slide` argument of `Heatmap.__init__`: either a path or an
already-constructed `WSI` object. -/
inductive SlideArg where
  | path (p : String)
  | wsi (w : WSIObj)
deriving Repr, DecidableEq

/-- Errors `Heatmap.__init__` can raise. -/
inductive InitErr where
  | valueError (msg : String)
  | heatmapError (msg : String)
  | wsiConfigError
deriving Repr, DecidableEq

/-- Which side-effecting stages of `Heatmap.__init__` ran before it
returned or raised: whether the model interface was constructed
(heatmap.py lines 144-151) and whether heatmap generation ran
(line 207). -/
structure InitTrace where
  interfaceBuilt : Bool
  generationRun : Bool
deriving Repr, DecidableEq

/-- A constructed `Heatmap` instance (the attributes the claims need). -/
structure HeatmapObj where
  uq : Bool
  slide : WSIObj
  stride_div : Int
  state : HeatmapState
deriving Repr, DecidableEq

/-- `Heatmap.__init__` (heatmap.py lines 35-210).  The very first
statement raises a `ValueError` when both `num_processes` and
`num_threads` are supplied; only then is the model interface built.
With a path argument, `stride_div` defaults to 2 and the `WSI`
constructor runs (a `SlideLoadError` is re-raised as `HeatmapError`;
its configuration error propagates).  With a `WSI` argument, `tile_px`
and `tile_um` must match the model config, and a supplied `stride_div`
is ignored with a warning — the slide's own `stride_div` is used.
Finally, when `generate` is set, the heatmap is generated
synchronously. -/
def heatmap_init (slideArg : SlideArg) (stride_div : Option Int)
    (num_threads num_processes : Option Nat) (tile_px tile_um : Nat)
    (uq : Bool) (it : InterfaceModel) (gen : Bool) (loadOk : Bool)
    (shape0 shape1 : Nat) : Except InitErr HeatmapObj × InitTrace :=
  if num_processes.isSome && num_threads.isSome then
    (.error (.valueError
        "Invalid argument: cannot supply both num_processes and num_threads"),
      { interfaceBuilt := false, generationRun := false })
  else
    let tr1 : InitTrace := { interfaceBuilt := true, generationRun := false }
    let finish : WSIObj → Int → Except InitErr HeatmapObj × InitTrace :=
      fun w sd =>
        let hm0 : HeatmapObj :=
          { uq := uq, slide := w, stride_div := sd,
            state := { predictions := none, uncertainty := none } }
        if gen then
          let r := Heatmap.generate it uq w hm0.state false
          (.ok { hm0 with state := r.1 },
            { interfaceBuilt := true, generationRun := true })
        else (.ok hm0, tr1)
    match slideArg with
    | .path p =>
        let sd := stride_div.getD 2
        match WSI_construct p tile_px tile_um sd loadOk shape0 shape1 with
        | .error .slideLoadError =>
            (.error (.heatmapError "Error loading slide for heatmap"), tr1)
        | .error .configError => (.error .wsiConfigError, tr1)
        | .ok w => finish w sd
    | .wsi w =>
        if w.tile_px ≠ tile_px then
          (.error (.valueError "Slide tile_px does not match model"), tr1)
        else if w.tile_um ≠ tile_um then
          (.error (.valueError "Slide tile_um does not match model"), tr1)
        else
          finish w w.stride_div

/-- Whether an `__init__` outcome is a successful construction. -/
def initOk : Except InitErr HeatmapObj × InitTrace → Bool
  | (.ok _, _) => true
  | (.error _, _) => false

/-- `Heatmap.plot` (heatmap.py lines 547-629): raises a `HeatmapError`
when `self.predictions` is `None` (before touching any state); plotting
itself never mutates `predictions` or `uncertainty`.  Returns the
instance state after the call and the raised error, if any. -/
def Heatmap.plot (s : HeatmapState) : HeatmapState × Option String :=
  if s.predictions.isNone then
    (s, some "Cannot plot Heatmap which is not yet generated")
  else (s, none)

/-- `Heatmap.save` (heatmap.py lines 653-762): raises a `HeatmapError`
when `self.predictions` is `None` (before writing anything); otherwise
writes the npz container via `save_npz` and the figure files.  Returns
the instance state after the call, the container written (if any), and
the raised error, if any. -/
def Heatmap.save (uq : Bool) (s : HeatmapState) :
    HeatmapState × Option Container × Option String :=
  if s.predictions.isNone then
    (s, none, some "Cannot plot Heatmap which is not yet generated")
  else (s, some (save_npz uq s), none)

end Slideflow

namespace Slideflow

/-- Claim C1: for a raw per-tile output array and a declared
`num_uncertainty = u > 0` (the interface sets `uq` exactly when it
declares uncertainty channels), `_generate` splits each cell's channel
vector so that the uncertainty part is exactly the trailing `u` entries
and the prediction part is exactly everything before them; when `u = 0`
the uncertainty part is absent (`None`) and the prediction part is the
whole array. -/
theorem c1_channel_split (uq : Bool) (u : Nat) (out : Grid)
    (huq : uq = decide (0 < u))
    (hlen : ∀ row ∈ out, ∀ v ∈ row, u ≤ v.length) :
    (0 < u →
      (generateSplit uq u out).predictions
          = some (mapChannels (fun v => v.take (v.length - u)) out) ∧
      (generateSplit uq u out).uncertainty
          = some (mapChannels (fun v => v.drop (v.length - u)) out) ∧
      ∀ row ∈ out, ∀ v ∈ row,
        (v.drop (v.length - u)).length = u ∧
        v.take (v.length - u) ++ v.drop (v.length - u) = v) ∧
    (u = 0 →
      (generateSplit uq u out).predictions = some out ∧
      (generateSplit uq u out).uncertainty = none) := by
  constructor
  · intro hu
    have huq' : uq = true := by simp [huq, hu]
    have hne : u ≠ 0 := Nat.pos_iff_ne_zero.mp hu
    refine ⟨?_, ?_, ?_⟩
    · simp only [generateSplit, huq', if_pos rfl, Option.some.injEq]
      unfold mapChannels
      refine congrArg _ (List.map_congr_left ?_)
      intro row _
      refine List.map_congr_left ?_
      intro v _
      simp [pySliceStopNeg, hne]
    · simp only [generateSplit, huq', if_pos rfl, Option.some.injEq]
      unfold mapChannels
      refine congrArg _ (List.map_congr_left ?_)
      intro row _
      refine List.map_congr_left ?_
      intro v _
      simp [pySliceStartNeg, hne]
    · intro row hrow v hv
      have hle := hlen row hrow v hv
      constructor
      · rw [List.length_drop]
        omega
      · exact List.take_append_drop _ v
  · intro hu
    have huq' : uq = false := by simp [huq, hu]
    simp [generateSplit, huq']

/-- Witness for C1 at the spec's own example: `u = 2` and raw vector
`[f1, f2, c1, c2, u1, u2] = [10, 20, 30, 40, 50, 60]`. -/
theorem c1_channel_split_witness :
    (true = decide (0 < 2) ∧
      ∀ row ∈ ([[[10, 20, 30, 40, 50, 60]]] : Grid), ∀ v ∈ row, 2 ≤ v.length) ∧
    ((0 < 2 →
      (generateSplit true 2 [[[10, 20, 30, 40, 50, 60]]]).predictions
          = some (mapChannels (fun v => v.take (v.length - 2))
              [[[10, 20, 30, 40, 50, 60]]]) ∧
      (generateSplit true 2 [[[10, 20, 30, 40, 50, 60]]]).uncertainty
          = some (mapChannels (fun v => v.drop (v.length - 2))
              [[[10, 20, 30, 40, 50, 60]]]) ∧
      ∀ row ∈ ([[[10, 20, 30, 40, 50, 60]]] : Grid), ∀ v ∈ row,
        (v.drop (v.length - 2)).length = 2 ∧
        v.take (v.length - 2) ++ v.drop (v.length - 2) = v) ∧
    (2 = 0 →
      (generateSplit true 2 [[[10, 20, 30, 40, 50, 60]]]).predictions
          = some [[[10, 20, 30, 40, 50, 60]]] ∧
      (generateSplit true 2 [[[10, 20, 30, 40, 50, 60]]]).uncertainty = none)) :=
  ⟨⟨by decide, by decide⟩,
    c1_channel_split true 2 [[[10, 20, 30, 40, 50, 60]]] (by decide) (by decide)⟩

/-- Claim C2: `save_npz` followed by `load_npz` on the produced container
restores the instance's `predictions` and `uncertainty` exactly
(round-trip identity), raising nothing, including when uncertainty is
absent (`uq = false`, so no `uncertainty` key is written and the absent
attribute is left as it was). -/
theorem c2_save_load_roundtrip (uq : Bool) (s : HeatmapState)
    (hp : s.predictions.isSome = true)
    (hu : uq = true → s.uncertainty.isSome = true) :
    load_npz (save_npz uq s) s = { state := s, warnings := [], error := none } := by
  have hne1 : ("predictions" : String) ≠ "logits" := by decide
  have hne2 : ("uncertainty" : String) ≠ "predictions" := by decide
  have hne3 : ("uncertainty" : String) ≠ "logits" := by decide
  have hne4 : ("predictions" : String) ≠ "uncertainty" := by decide
  cases uq <;>
    simp [save_npz, load_npz, containsC, lookupC, fromNpVal_toNpVal,
      hne1, hne2, hne3, hne4]

/-- Witness for C2: a state with a concrete 1×1×2 predictions array and a
1×1×1 uncertainty array, saved and reloaded with `uq = true`. -/
theorem c2_save_load_roundtrip_witness :
    ((HeatmapState.mk (some [[[1, 2]]]) (some [[[3]]])).predictions.isSome = true ∧
      (true = true →
        (HeatmapState.mk (some [[[1, 2]]]) (some [[[3]]])).uncertainty.isSome = true)) ∧
    load_npz (save_npz true (HeatmapState.mk (some [[[1, 2]]]) (some [[[3]]])))
        (HeatmapState.mk (some [[[1, 2]]]) (some [[[3]]]))
      = { state := HeatmapState.mk (some [[[1, 2]]]) (some [[[3]]]),
          warnings := [], error := none } :=
  ⟨⟨by decide, fun _ => by decide⟩,
    c2_save_load_roundtrip true (HeatmapState.mk (some [[[1, 2]]]) (some [[[3]]]))
      (by decide) (fun _ => by decide)⟩

/-- Claim C4: loading a container that lacks the key `predictions` but
holds an array under the legacy key `logits` sets the `predictions`
attribute to that array, logs a compatibility warning, and raises
nothing. -/
theorem c4_legacy_logits (c : Container) (s : HeatmapState) (g : Grid)
    (hnp : containsC c "predictions" = false)
    (hl : lookupC c "logits" = some (.arr g)) :
    (load_npz c s).error = none ∧
    (load_npz c s).state.predictions = some g ∧
    (load_npz c s).warnings = ["Loading predictions from logits key."] := by
  have hcl : containsC c "logits" = true := by
    simp [containsC, hl]
  simp only [load_npz, hnp, hcl, Bool.not_false, Bool.true_and, if_pos rfl, hl,
    Option.getD_some]
  refine ⟨rfl, ?_, rfl⟩
  by_cases hcu : containsC c "uncertainty" = true
  · simp [hcu, fromNpVal]
  · simp [Bool.eq_false_iff.mpr hcu, fromNpVal]

/-- Witness for C4: a concrete legacy container holding only `logits`. -/
theorem c4_legacy_logits_witness :
    (containsC [("logits", NpVal.arr [[[7]]])] "predictions" = false ∧
      lookupC [("logits", NpVal.arr [[[7]]])] "logits" = some (.arr [[[7]]])) ∧
    ((load_npz [("logits", NpVal.arr [[[7]]])] (HeatmapState.mk none none)).error = none ∧
      (load_npz [("logits", NpVal.arr [[[7]]])]
          (HeatmapState.mk none none)).state.predictions = some [[[7]]] ∧
      (load_npz [("logits", NpVal.arr [[[7]]])] (HeatmapState.mk none none)).warnings
        = ["Loading predictions from logits key."]) :=
  ⟨⟨by decide, by decide⟩,
    c4_legacy_logits [("logits", NpVal.arr [[[7]]])] (HeatmapState.mk none none)
      [[[7]]] (by decide) (by decide)⟩

/-- Claim C5: loading a container missing both `predictions` and the
legacy `logits` key raises, and at the moment of the raise the
instance's `predictions` and `uncertainty` attributes still hold the
values they had before the call (the `KeyError` fires before any
assignment). -/
theorem c5_missing_keys_atomic (c : Container) (s : HeatmapState)
    (hp : containsC c "predictions" = false)
    (hl : containsC c "logits" = false) :
    (load_npz c s).error.isSome = true ∧
    (load_npz c s).state = s ∧
    (load_npz c s).warnings = [] := by
  have hlk : lookupC c "predictions" = none := by
    simpa [containsC] using hp
  simp [load_npz, hp, hl, hlk]

/-- Witness for C5: a concrete container with neither key; the state is
returned unchanged alongside the error. -/
theorem c5_missing_keys_atomic_witness :
    (containsC [("uncertainty", NpVal.arr [[[9]]])] "predictions" = false ∧
      containsC [("uncertainty", NpVal.arr [[[9]]])] "logits" = false) ∧
    ((load_npz [("uncertainty", NpVal.arr [[[9]]])]
        (HeatmapState.mk (some [[[5]]]) none)).error.isSome = true ∧
      (load_npz [("uncertainty", NpVal.arr [[[9]]])]
          (HeatmapState.mk (some [[[5]]]) none)).state
        = HeatmapState.mk (some [[[5]]]) none ∧
      (load_npz [("uncertainty", NpVal.arr [[[9]]])]
          (HeatmapState.mk (some [[[5]]]) none)).warnings = []) :=
  ⟨⟨by decide, by decide⟩,
    c5_missing_keys_atomic [("uncertainty", NpVal.arr [[[9]]])]
      (HeatmapState.mk (some [[[5]]]) none) (by decide) (by decide)⟩

/-- Claim C6: `generate(asynchronous=True)` returns immediately a pair
`(buffer, thread)` where the buffer is a 3-D array of shape
`(rows, cols, C)` with `C = num_features + num_classes +
num_uncertainty`, every entry of which is the sentinel `-1` at the
moment of return; `generate(asynchronous=False)` returns `None` on
success. -/
theorem c6_generate_modes (it : InterfaceModel) (uq : Bool) (w : WSIObj)
    (s : HeatmapState) :
    (∃ buf thr, (Heatmap.generate it uq w s true).2 = some (buf, thr) ∧
      buf.length = w.gridRows ∧
      (∀ row ∈ buf, row.length = w.gridCols ∧
        ∀ cell ∈ row,
          cell.length = it.num_features + it.num_classes + it.num_uncertainty ∧
          ∀ x ∈ cell, x = -1)) ∧
    (Heatmap.generate it uq w s false).2 = none := by
  refine ⟨⟨_, _, rfl, ?_, ?_⟩, rfl⟩
  · simp [sentinelGrid]
  · intro row hrow
    rw [sentinelGrid] at hrow
    obtain rfl := List.eq_of_mem_replicate hrow
    refine ⟨by simp, ?_⟩
    intro cell hcell
    obtain rfl := List.eq_of_mem_replicate hcell
    refine ⟨by simp, ?_⟩
    intro x hx
    exact List.eq_of_mem_replicate hx

/-- Claim C7: the buffer produced by asynchronous `generate`, observed
after the background thread completes, is identical to the result of
synchronous `generate` on the same slide, interface and configuration:
the thread's final buffer equals the synchronous interface output (both
runs start from the same all-sentinel buffer and the interface fill is
deterministic), and the thread's final instance state equals the state
written by the synchronous call, from any starting states. -/
theorem c7_async_sync_identical (it : InterfaceModel) (uq : Bool) (w : WSIObj)
    (s s' : HeatmapState) :
    ∃ buf thr, (Heatmap.generate it uq w s true).2 = some (buf, thr) ∧
      thr.finalBuffer = interfaceRun it w none ∧
      thr.finalState = (Heatmap.generate it uq w s' false).1 :=
  ⟨_, _, rfl, rfl, rfl⟩

/-- A concrete deterministic inference backend used for counterexamples:
it declares one class channel and fills every channel entry with `1`. -/
def demoInterface : InterfaceModel where
  num_features := 0
  num_classes := 1
  num_uncertainty := 0
  fill := fun _ g => mapChannels (fun v => v.map (fun _ => 1)) g

/-- A concrete slide with a 2×2 tile grid. -/
def demoWSI : WSIObj where
  path := "slide.svs"
  tile_px := 299
  tile_um := 302
  stride_div := 2
  gridShape0 := 2
  gridShape1 := 2

/-- Counterexample to claim C8 as stated: start an asynchronous run on a
fresh instance (the returned thread is not joined, so the run is in
progress and the instance state is still the initial one); invoking
`generate` again on that instance returns a buffer-thread pair normally.
`Heatmap.generate` (heatmap.py lines 234-292) performs no in-progress
check, so no state error is raised. -/
theorem c8_counterexample :
    ((Heatmap.generate demoInterface false demoWSI
        (HeatmapState.mk none none) true).1 = HeatmapState.mk none none) ∧
    (Heatmap.generate demoInterface false demoWSI
        ((Heatmap.generate demoInterface false demoWSI
          (HeatmapState.mk none none) true).1) true).2.isSome = true :=
  ⟨rfl, rfl⟩

/-- Claim C8 amended: invoking `generate` again while a run is in
progress is not rejected: the code has no in-progress check and never
raises a state error; the repeated asynchronous call returns normally
with a freshly allocated all-sentinel buffer of its own, so it does not
write into the earlier run's returned buffer. -/
theorem c8_amended_no_state_error (it : InterfaceModel) (uq : Bool)
    (w : WSIObj) (s : HeatmapState) :
    ∃ buf thr, (Heatmap.generate it uq w s true).2 = some (buf, thr) ∧
      buf = sentinelGrid w.gridRows w.gridCols
        (it.num_features + it.num_classes + it.num_uncertainty) :=
  ⟨_, _, rfl, rfl⟩

/-- Claim C3: supplying both a thread count and a process count makes
`Heatmap.__init__` raise a `ValueError` immediately — it is the
constructor's first statement, so no interface is built and no
generation runs. -/
theorem c3_both_pools_rejected (slideArg : SlideArg) (stride_div : Option Int)
    (nt nproc : Option Nat) (tile_px tile_um : Nat) (uq : Bool)
    (it : InterfaceModel) (gen loadOk : Bool) (shape0 shape1 : Nat)
    (hnt : nt.isSome = true) (hnp : nproc.isSome = true) :
    heatmap_init slideArg stride_div nt nproc tile_px tile_um uq it gen
        loadOk shape0 shape1
      = (.error (.valueError
          "Invalid argument: cannot supply both num_processes and num_threads"),
         { interfaceBuilt := false, generationRun := false }) := by
  simp [heatmap_init, hnt, hnp]

/-- Witness for C3: concrete `num_threads = 4` and `num_processes = 2`. -/
theorem c3_both_pools_rejected_witness :
    ((some 4 : Option Nat).isSome = true ∧ (some 2 : Option Nat).isSome = true) ∧
    heatmap_init (.path "slide.svs") none (some 4) (some 2) 299 302 false
        demoInterface true true 2 2
      = (.error (.valueError
          "Invalid argument: cannot supply both num_processes and num_threads"),
         { interfaceBuilt := false, generationRun := false }) :=
  ⟨⟨by decide, by decide⟩,
    c3_both_pools_rejected (.path "slide.svs") none (some 4) (some 2) 299 302
      false demoInterface true true 2 2 (by decide) (by decide)⟩

/-- Counterexample to claim C9 as stated: constructing a `Heatmap` from
an already-built `WSI` object while supplying `stride_div = -1 ≤ 0`
succeeds — `Heatmap.__init__` merely warns that the supplied
`stride_div` is ignored and uses the slide's own, so not every
stride-divisor value ≤ 0 supplied at construction is rejected. -/
theorem c9_counterexample :
    initOk (heatmap_init (.wsi demoWSI) (some (-1)) none none 299 302 false
      demoInterface false true 2 2) = true := by
  decide

/-- Claim C9 amended: when the slide is supplied as a path, a stride
divisor ≤ 0 makes construction fail (the Tile Source constructor rejects
it) before any generation work runs; when the slide is supplied as an
already-constructed `WSI`, the stride-divisor argument is ignored with a
warning and construction succeeds without error. -/
theorem c9_amended_stride_validation (p : String) (sd : Int)
    (nt nproc : Option Nat) (tile_px tile_um : Nat) (uq : Bool)
    (it : InterfaceModel) (gen loadOk : Bool) (shape0 shape1 : Nat)
    (w : WSIObj)
    (hpool : (nproc.isSome && nt.isSome) = false)
    (hsd : sd ≤ 0)
    (hpx : w.tile_px = tile_px) (hum : w.tile_um = tile_um) :
    ((heatmap_init (.path p) (some sd) nt nproc tile_px tile_um uq it gen
          loadOk shape0 shape1).1 = .error .wsiConfigError ∧
      (heatmap_init (.path p) (some sd) nt nproc tile_px tile_um uq it gen
          loadOk shape0 shape1).2.generationRun = false) ∧
    initOk (heatmap_init (.wsi w) (some sd) nt nproc tile_px tile_um uq it gen
        loadOk shape0 shape1) = true := by
  subst hpx
  subst hum
  constructor
  · simp [heatmap_init, hpool, WSI_construct, hsd]
  · cases gen <;> simp [heatmap_init, hpool, initOk]

/-- Witness for C9's amended claim: `stride_div = -1`, a path-slide
construction failing and a WSI-slide construction succeeding. -/
theorem c9_amended_stride_validation_witness :
    ((((none : Option Nat).isSome && (none : Option Nat).isSome) = false ∧
        (-1 : Int) ≤ 0) ∧
      demoWSI.tile_px = 299 ∧ demoWSI.tile_um = 302) ∧
    (((heatmap_init (.path "slide.svs") (some (-1)) none none 299 302 false
          demoInterface false true 2 2).1 = .error .wsiConfigError ∧
      (heatmap_init (.path "slide.svs") (some (-1)) none none 299 302 false
          demoInterface false true 2 2).2.generationRun = false) ∧
    initOk (heatmap_init (.wsi demoWSI) (some (-1)) none none 299 302 false
        demoInterface false true 2 2) = true) :=
  ⟨⟨⟨by decide, by decide⟩, by decide, by decide⟩,
    c9_amended_stride_validation "slide.svs" (-1) none none 299 302 false
      demoInterface false true 2 2 demoWSI (by decide) (by decide)
      (by decide) (by decide)⟩

/-- Claim C10: on an instance whose predictions were never generated nor
loaded (`self.predictions is None`), both `plot` and `save` raise a
`HeatmapError`, write nothing, and leave `predictions` and `uncertainty`
unchanged (still absent). -/
theorem c10_plot_save_unloaded (uq : Bool) (s : HeatmapState)
    (h : s.predictions = none) :
    (Heatmap.plot s).2.isSome = true ∧ (Heatmap.plot s).1 = s ∧
    (Heatmap.save uq s).2.2.isSome = true ∧ (Heatmap.save uq s).2.1 = none ∧
    (Heatmap.save uq s).1 = s := by
  simp [Heatmap.plot, Heatmap.save, h]

/-- Witness for C10: a fresh instance with no predictions and no
uncertainty. -/
theorem c10_plot_save_unloaded_witness :
    ((HeatmapState.mk none none).predictions = none) ∧
    ((Heatmap.plot (HeatmapState.mk none none)).2.isSome = true ∧
      (Heatmap.plot (HeatmapState.mk none none)).1 = HeatmapState.mk none none ∧
      (Heatmap.save false (HeatmapState.mk none none)).2.2.isSome = true ∧
      (Heatmap.save false (HeatmapState.mk none none)).2.1 = none ∧
      (Heatmap.save false (HeatmapState.mk none none)).1
        = HeatmapState.mk none none) :=
  ⟨by decide, c10_plot_save_unloaded false (HeatmapState.mk none none) (by decide)⟩

end Slideflow
